import Mathlib

/-!
# Verification of the write-coalescing persistence layer of the notes app

Shallow embedding of `src/optimized-notes.js` (class `NotesApp`):
the localStorage medium, the availability probe, `loadNotes`, the
debounced `updateStorage`, the DOM mutations `createNote` / `deleteNote`,
and the delegated event router (`handleNotesClick`, the paste listener).
-/

namespace NotesApp

/-! ## The persistence medium (localStorage)

The medium is a key-value store whose `setItem`/`getItem` may throw.
Every operation performed against it is recorded in an operation trace,
so that "never touches the key" claims are statable. -/

/-- One raw operation against the medium. -/
inductive MedOp where
  | get (key : String)
  | set (key : String) (value : String)
  | remove (key : String)
deriving DecidableEq, Repr

/-- The key an operation touches. -/
def MedOp.key : MedOp → String
  | .get k => k
  | .set k _ => k
  | .remove k => k

/-- State of the medium: the stored map, which `setItem`/`getItem` calls
throw (and with which JS error name), and the trace of operations
performed so far. -/
structure MedState where
  store : String → Option String
  setError : String → String → Option String
  getError : String → Option String
  ops : List MedOp

/-- `localStorage.setItem(k, v)`: records the operation; throws the
configured error name, or updates the store. -/
def setItemRaw (k v : String) (m : MedState) : Except String Unit × MedState :=
  let m1 : MedState := { m with ops := m.ops ++ [MedOp.set k v] }
  match m.setError k v with
  | some e => (.error e, m1)
  | none => (.ok (), { m1 with store := fun k2 => if k2 = k then some v else m.store k2 })

/-- `localStorage.getItem(k)`: records the operation; throws the
configured error name, or returns the stored value (`none` = JS `null`). -/
def getItemRaw (k : String) (m : MedState) : Except String (Option String) × MedState :=
  let m1 : MedState := { m with ops := m.ops ++ [MedOp.get k] }
  match m.getError k with
  | some e => (.error e, m1)
  | none => (.ok (m.store k), m1)

/-- `localStorage.removeItem(k)`: records the operation and unsets the key. -/
def removeItemRaw (k : String) (m : MedState) : MedState :=
  { m with ops := m.ops ++ [MedOp.remove k],
           store := fun k2 => if k2 = k then none else m.store k2 }

/-! ## Availability probe (`isLocalStorageAvailable`, lines 32-41) -/

/-- `isLocalStorageAvailable()`: tries a throwaway write+remove on the
disposable key `"test"`; an exception is caught and reported as `false`. -/
def isLocalStorageAvailable (m : MedState) : Bool × MedState :=
  match setItemRaw "test" "test" m with
  | (.error _, m1) => (false, m1)
  | (.ok _, m1) => (true, removeItemRaw "test" m1)

/-! ## `loadNotes` (lines 44-53)

`loadNotes` reads `localStorage.getItem("notes")` inside a try/catch;
a truthy value (non-null, non-empty in JS) replaces the container's
innerHTML; a caught read error is logged (`console.error`). It does
NOT consult the availability probe. The container's serialized content
is modelled as a `String`. -/

/-- Body of the `try` block of `loadNotes`: may propagate the read error. -/
def loadNotesBody (container : String) (m : MedState) : Except String (String × MedState) :=
  match getItemRaw "notes" m with
  | (.error e, _) => .error e
  | (.ok (some s), m1) => .ok (if s ≠ "" then s else container, m1)
  | (.ok none, m1) => .ok (container, m1)

/-- `loadNotes()`: the try/catch wrapper. Returns the container content
after the call, the medium, and the number of `console.error` logs. -/
def loadNotes (container : String) (m : MedState) : String × MedState × Nat :=
  match loadNotesBody container m with
  | .ok (c, m1) => (c, m1, 0)
  | .error _ => (container, { m with ops := m.ops ++ [MedOp.get "notes"] }, 1)

/-- The `Snapshot | absent` value the load operation yields: `none`
(absent) when the key is unset, the stored value is the empty string,
or the read throws. -/
def loadResult (m : MedState) : Option String :=
  match m.getError "notes" with
  | some _ => none
  | none =>
    match m.store "notes" with
    | some s => if s = "" then none else some s
    | none => none

/-! ## The debounce timer callback (lines 65-74)

The body of the `setTimeout` callback in `updateStorage`: try to
`setItem("notes", innerHTML)`; on error, `console.error` always, and
`alert(...)` exactly when the error name is `'QuotaExceededError'`. -/

/-- Outcome of one run of the timer callback. -/
structure CbOut where
  medium : MedState
  logs : Nat
  alerts : Nat

/-- The timer callback body: one `setItem` attempt on the key `"notes"`,
with the catch block's classification. Never propagates the error. -/
def saveCallback (container : String) (m : MedState) : CbOut :=
  match setItemRaw "notes" container m with
  | (.ok _, m1) => { medium := m1, logs := 0, alerts := 0 }
  | (.error e, m1) =>
      { medium := m1, logs := 1,
        alerts := if e = "QuotaExceededError" then 1 else 0 }

/-! ## The debounce coordinator (`updateStorage`, lines 56-76)

`updateStorage` checks availability, clears any pending timer and
schedules a new one `debounceDelay` later. Time is `Nat`; the live
container content is an external function of time (`content : Nat → String`),
since the tree keeps mutating between request and fire. A fire appends
`(fireTime, content fireTime)` to the save trace — the callback reads
`this.notesContainer.innerHTML` at fire time. -/

/-- `this.debounceDelay = 300`. -/
def debounceDelay : Nat := 300

/-- Debounce coordinator state: the pending timer's fire time (at most
one live timer), and the chronological trace of `setItem("notes", ·)`
calls as (fire time, value saved). -/
structure DebState where
  pending : Option Nat
  saves : List (Nat × String)
deriving DecidableEq, Repr

/-- Lines 59-65: `clearTimeout` of any pending timer, then `setTimeout`
of a fresh one `debounceDelay` after the current time. -/
def clearAndSchedule (t : Nat) (d : DebState) : DebState :=
  { d with pending := some (t + debounceDelay) }

/-- `updateStorage()` called at time `t`: returns immediately when the
probe reports unavailable, else cancels the pending timer and schedules
a new one. `avail` is what `isLocalStorageAvailable()` reports at `t`. -/
def updateStorage (avail : Bool) (t : Nat) (d : DebState) : DebState :=
  if avail then clearAndSchedule t d else d

/-- The host's timer queue: a pending timer due at or before time `t`
fires before anything scheduled at `t` runs; firing performs the one
`setItem` on the current (fire-time) content and clears the slot. -/
def fireDue (content : Nat → String) (t : Nat) (d : DebState) : DebState :=
  match d.pending with
  | some ft => if ft ≤ t then { pending := none, saves := d.saves ++ [(ft, content ft)] } else d
  | none => d

/-- Process a chronological list of `updateStorage` request times:
before each request any due timer fires, then the request runs. -/
def runRequests (avail : Bool) (content : Nat → String) : List Nat → DebState → DebState
  | [], d => d
  | t :: ts, d => runRequests avail content ts (updateStorage avail t (fireDue content t d))

/-- After the last request, let the remaining pending timer (if any)
fire at its own fire time. -/
def flushFinal (content : Nat → String) (d : DebState) : DebState :=
  match d.pending with
  | some ft => { pending := none, saves := d.saves ++ [(ft, content ft)] }
  | none => d

/-- A whole burst run from an idle coordinator: process the requests,
then let the surviving timer fire. -/
def runBurst (avail : Bool) (content : Nat → String) (reqs : List Nat) : DebState :=
  flushFinal content (runRequests avail content reqs { pending := none, saves := [] })

/-- The time of the last request of a nonempty burst `t :: ts`. -/
def lastReq (t : Nat) : List Nat → Nat
  | [] => t
  | t1 :: ts => lastReq t1 ts

/-- The synchronous part of `updateStorage` run against the real medium:
the probe is consulted (touching only the key `"test"`), and only on
success is the timer slot rescheduled. -/
def updateStorageSync (t : Nat) (d : DebState) (m : MedState) : DebState × MedState :=
  match isLocalStorageAvailable m with
  | (true, m1) => (clearAndSchedule t d, m1)
  | (false, m1) => (d, m1)

/-! ## The document tree and its mutations (`createNote`, `deleteNote`)

The container holds an ordered list of item elements. An item created
by `createNote` (lines 79-107) is a `<p class="input-box">` that is
contentEditable, carries `data-note-id` = `Date.now()`, and has one
`<img class="delete-btn">` child. -/

/-- A child node of an item (the delete control is the only one built). -/
structure ChildElem where
  tag : String
  className : String
deriving DecidableEq, Repr

/-- An element of the notes container. -/
structure Elem where
  tag : String
  className : String
  contentEditable : Bool
  dataNoteId : Option Nat
  children : List ChildElem
deriving DecidableEq, Repr

/-- The `<img src="images/delete.png" class="delete-btn">` built at lines 84, 91-93. -/
def deleteImg : ChildElem := { tag := "img", className := "delete-btn" }

/-- The item `createNote` builds (lines 83-97) when `Date.now()` returns `now`. -/
def newNoteElem (now : Nat) : Elem :=
  { tag := "p", className := "input-box", contentEditable := true,
    dataNoteId := some now, children := [deleteImg] }

/-- DOM-side state: the container's items, the currently focused element,
and a count of `updateStorage()` calls (save requests / timer schedules). -/
structure DomState where
  notes : List Elem
  focused : Option Elem
  saveRequests : Nat
deriving DecidableEq, Repr

/-- `createNote()` with `Date.now() = now`: builds the item, appends it
to the container in one operation, focuses it, and requests a save. -/
def createNote (now : Nat) (s : DomState) : DomState :=
  { notes := s.notes ++ [newNoteElem now],
    focused := some (newNoteElem now),
    saveRequests := s.saveRequests + 1 }

/-- `deleteNote(noteElement)` (lines 110-118): `none` models a null /
undefined argument, on which the guard `if (!noteElement) return`
fires; `some i` models the item at index `i` of the container, which
`noteElement.remove()` detaches before a save is requested. -/
def deleteNote (noteElem : Option Nat) (s : DomState) : DomState :=
  match noteElem with
  | none => s
  | some i =>
      { s with notes := s.notes.eraseIdx i,
               saveRequests := s.saveRequests + 1 }

/-! ## The click router (`handleNotesClick`, lines 147-155) -/

/-- A click event's target as the router inspects it: its `tagName`, its
class list, and its `parentElement` — `some i` when the parent is the
item at index `i` of the container, `none` when the target has no
parent element. -/
structure Click where
  tag : String
  classes : List String
  parentIdx : Option Nat
deriving DecidableEq, Repr

/-- Line 151: `target.tagName === "IMG" && target.classList.contains("delete-btn")`. -/
def isDeleteControlTarget (c : Click) : Bool :=
  c.tag = "IMG" && c.classes.contains "delete-btn"

/-- `handleNotesClick(e)`: on a delete-control target, `preventDefault`
and `deleteNote(target.parentElement)`; otherwise nothing. Returns the
new DOM state and whether the default action was suppressed. -/
def handleNotesClick (c : Click) (s : DomState) : DomState × Bool :=
  if isDeleteControlTarget c then (deleteNote c.parentIdx s, true)
  else (s, false)

/-! ## The paste listener (lines 138-143)

The paste listener neither prevents the default insertion nor inserts
anything itself; it only schedules `setTimeout(() => updateStorage(), 0)`.
The host dispatch semantics: handler actions run first, then the
un-prevented default insertion completes within the same task, then each
queued zero-delay callback runs after one yield to the task queue. -/

/-- What a queued callback does. -/
inductive Cb where
  | callUpdateStorage
deriving DecidableEq, Repr

/-- An action a bubbled-event handler can take. -/
inductive HandlerAct where
  | preventDefault
  | schedule (delay : Nat) (cb : Cb)
deriving DecidableEq, Repr

/-- The paste listener's actions, read off lines 138-143. -/
def pasteHandlerActs : List HandlerAct := [.schedule 0 .callUpdateStorage]

/-- Observable steps of dispatching one bubbled event. -/
inductive EvObs where
  | defaultInsertion
  | yieldToHost
  | saveRequested
deriving DecidableEq, Repr

/-- Observations produced by running one queued callback. -/
def cbObs : Cb → List EvObs
  | .callUpdateStorage => [.saveRequested]

/-- The delay/callback pairs a handler queued. -/
def queuedOf (acts : List HandlerAct) : List (Nat × Cb) :=
  acts.filterMap fun a =>
    match a with
    | .schedule d cb => some (d, cb)
    | .preventDefault => none

/-- Host dispatch of one bubbled event with default action "insert the
pasted text": the handler's actions run, the default insertion happens
unless prevented, then each queued callback runs after a yield. -/
def dispatchEvent (acts : List HandlerAct) : List EvObs :=
  let prevented := acts.contains .preventDefault
  (if prevented then [] else [EvObs.defaultInsertion]) ++
    (queuedOf acts).flatMap fun q => EvObs.yieldToHost :: cbObs q.2

/-! ## Helper lemmas -/

/-- Through a burst whose consecutive gaps are all below `debounceDelay`,
no timer ever fires: each request finds the pending timer not yet due,
cancels it and reschedules from its own time. -/
theorem runRequests_chain (content : Nat → String) (l : List (Nat × String)) (t0 : Nat)
    (rest : List Nat)
    (h : List.Chain (fun a b => a ≤ b ∧ b < a + debounceDelay) t0 rest) :
    runRequests true content rest { pending := some (t0 + debounceDelay), saves := l } =
      { pending := some (lastReq t0 rest + debounceDelay), saves := l } := by
  induction rest generalizing t0 with
  | nil => simp [runRequests, lastReq]
  | cons t1 ts ih =>
      rcases h with _ | ⟨⟨h1, h2⟩, h3⟩
      have hlt : ¬ (t0 + debounceDelay ≤ t1) := by omega
      simp only [runRequests, fireDue, hlt, if_false, updateStorage, clearAndSchedule, lastReq,
        if_true]
      exact ih t1 h3

/-- `fireDue` only appends saves of the form `(ft, content ft)`. -/
theorem fireDue_fresh (content : Nat → String) (t : Nat) (d : DebState)
    (hd : ∀ p ∈ d.saves, p.2 = content p.1) :
    ∀ p ∈ (fireDue content t d).saves, p.2 = content p.1 := by
  unfold fireDue
  cases hp : d.pending with
  | none => exact hd
  | some ft =>
      by_cases hle : ft ≤ t
      · simp only [hle, if_true]
        intro p hmem
        rcases List.mem_append.mp hmem with h1 | h2
        · exact hd p h1
        · rcases List.mem_singleton.mp h2 with rfl
          rfl
      · simp only [hle, if_false]
        exact hd

/-- `flushFinal` only appends saves of the form `(ft, content ft)`. -/
theorem flushFinal_fresh (content : Nat → String) (d : DebState)
    (hd : ∀ p ∈ d.saves, p.2 = content p.1) :
    ∀ p ∈ (flushFinal content d).saves, p.2 = content p.1 := by
  unfold flushFinal
  cases hp : d.pending with
  | none => exact hd
  | some ft =>
      intro p hmem
      rcases List.mem_append.mp hmem with h1 | h2
      · exact hd p h1
      · rcases List.mem_singleton.mp h2 with rfl
        rfl

/-- `updateStorage` never writes a save itself. -/
theorem updateStorage_saves (avail : Bool) (t : Nat) (d : DebState) :
    (updateStorage avail t d).saves = d.saves := by
  unfold updateStorage clearAndSchedule
  by_cases h : avail <;> simp [h]

/-- Every save `runRequests` ever records carries the content read at
its own fire time. -/
theorem runRequests_fresh (avail : Bool) (content : Nat → String) (reqs : List Nat)
    (d : DebState) (hd : ∀ p ∈ d.saves, p.2 = content p.1) :
    ∀ p ∈ (runRequests avail content reqs d).saves, p.2 = content p.1 := by
  induction reqs generalizing d with
  | nil => exact hd
  | cons t ts ih =>
      refine ih (updateStorage avail t (fireDue content t d)) ?_
      rw [updateStorage_saves]
      exact fireDue_fresh content t d hd

/-! ## C1 — debounce coalescing -/

/-- C1: for a burst of `N ≥ 1` `updateStorage` calls at times
`t0 :: rest`, consecutive calls less than `debounceDelay` apart, with
the medium available, exactly one `localStorage.setItem` on the
`"notes"` key occurs — at time `lastReq + debounceDelay`, a full
interval after the last request — and every request overwrites
(cancels) the pending timer slot. -/
theorem debounce_burst_single_save (content : Nat → String) (t0 : Nat) (rest : List Nat)
    (h : List.Chain (fun a b => a ≤ b ∧ b < a + debounceDelay) t0 rest) :
    (runBurst true content (t0 :: rest)).saves =
      [(lastReq t0 rest + debounceDelay, content (lastReq t0 rest + debounceDelay))] ∧
    (∀ p ∈ (runBurst true content (t0 :: rest)).saves,
        lastReq t0 rest + debounceDelay ≤ p.1) ∧
    (∀ t d, (updateStorage true t d).pending = some (t + debounceDelay)) := by
  have key : runBurst true content (t0 :: rest) =
      { pending := none,
        saves := [(lastReq t0 rest + debounceDelay,
                   content (lastReq t0 rest + debounceDelay))] } := by
    unfold runBurst
    have h0 : runRequests true content (t0 :: rest) { pending := none, saves := [] } =
        runRequests true content rest { pending := some (t0 + debounceDelay), saves := [] } := by
      simp [runRequests, fireDue, updateStorage, clearAndSchedule]
    rw [h0, runRequests_chain content [] t0 rest h]
    simp [flushFinal]
  refine ⟨by rw [key], ?_, ?_⟩
  · rw [key]
    intro p hp
    rcases List.mem_singleton.mp hp with rfl
    exact le_refl _
  · intro t d
    simp [updateStorage, clearAndSchedule]

/-- Witness for C1 at the concrete burst 0, 100, 250 with constant content. -/
theorem debounce_burst_single_save_witness :
    List.Chain (fun a b => a ≤ b ∧ b < a + debounceDelay) 0 [100, 250] ∧
    ((runBurst true (fun _ => "snap") [0, 100, 250]).saves =
        [(lastReq 0 [100, 250] + debounceDelay,
          (fun _ => "snap") (lastReq 0 [100, 250] + debounceDelay))] ∧
      (∀ p ∈ (runBurst true (fun _ => "snap") [0, 100, 250]).saves,
          lastReq 0 [100, 250] + debounceDelay ≤ p.1) ∧
      (∀ t d, (updateStorage true t d).pending = some (t + debounceDelay))) :=
  have hchain : List.Chain (fun a b => a ≤ b ∧ b < a + debounceDelay) 0 [100, 250] :=
    List.Chain.cons (by decide) (List.Chain.cons (by decide) List.Chain.nil)
  ⟨hchain, debounce_burst_single_save (fun _ => "snap") 0 [100, 250] hchain⟩

/-! ## C2 — freshness of the persisted snapshot -/

/-- C2: every value the debounced save writes is the container content
read at the timer's fire time: the producer (`this.notesContainer.innerHTML`)
is evaluated inside the deferred callback, not captured at request
time, so mutations between the last request and the fire are reflected. -/
theorem saved_snapshot_fresh (avail : Bool) (content : Nat → String) (reqs : List Nat) :
    ∀ p ∈ (runBurst avail content reqs).saves, p.2 = content p.1 := by
  unfold runBurst
  exact flushFinal_fresh content _
    (runRequests_fresh avail content reqs _ (by intro p hp; cases hp))

/-- Witness for C2: one request at 0 while content varies with time;
the save at 300 carries the content at 300. -/
theorem saved_snapshot_fresh_witness :
    (300, "300") ∈ (runBurst true (fun t => toString t) [0]).saves ∧
      (300, "300").2 = (fun t : Nat => toString t) (300, "300").1 :=
  ⟨by decide, saved_snapshot_fresh true (fun t => toString t) [0] (300, "300") (by decide)⟩

/-! ## C3 — availability gating -/

/-- A medium in Safari-private-mode shape: writes throw (the probe's
throwaway `setItem("test","test")` fails, so the probe reports
unavailable), yet reads work and the `"notes"` key holds a snapshot. -/
def cexMedium : MedState :=
  { store := fun k => if k = "notes" then some "hello" else none,
    setError := fun k _ => if k = "test" then some "SecurityError" else none,
    getError := fun _ => none,
    ops := [] }

/-- C3 counterexample: with the probe reporting unavailable, `loadNotes`
still performs a `getItem` on the snapshot key and restores the stored
value instead of returning absent — load is not gated by the probe. -/
theorem load_not_gated_by_probe :
    (isLocalStorageAvailable cexMedium).1 = false ∧
    MedOp.get "notes" ∈ (loadNotes "old" cexMedium).2.1.ops ∧
    (loadNotes "old" cexMedium).1 = "hello" ∧
    loadResult cexMedium ≠ none := by decide

/-- C3 amended: when the probe reports the medium unavailable, the save
operation (`updateStorage`) returns immediately — the timer slot is
untouched and every medium operation performed was either already in the
trace or touches only the probe's disposable `"test"` key, never the
snapshot key — and `loadNotes` never propagates a read error: a throwing
read is caught, logged once, and leaves the container unchanged. Load,
however, is not gated by the probe: it reads the snapshot key
unconditionally (see the counterexample). -/
theorem availability_gating_amended (t : Nat) (d : DebState) (m : MedState)
    (hprobe : (isLocalStorageAvailable m).1 = false) :
    (updateStorageSync t d m).1 = d ∧
    (∀ op ∈ (updateStorageSync t d m).2.ops, op ∈ m.ops ∨ op.key = "test") ∧
    (∀ c e, loadNotesBody c m = .error e →
        (loadNotes c m).1 = c ∧ (loadNotes c m).2.2 = 1) := by
  have hcatch : ∀ c e, loadNotesBody c m = .error e →
      (loadNotes c m).1 = c ∧ (loadNotes c m).2.2 = 1 := by
    intro c e he
    unfold loadNotes
    rw [he]
    exact ⟨rfl, rfl⟩
  cases hset : m.setError "test" "test" with
  | none =>
      exfalso
      have : (isLocalStorageAvailable m).1 = true := by
        simp [isLocalStorageAvailable, setItemRaw, hset]
      rw [this] at hprobe
      exact Bool.noConfusion hprobe
  | some e =>
      have hm : updateStorageSync t d m =
          (d, { m with ops := m.ops ++ [MedOp.set "test" "test"] }) := by
        simp [updateStorageSync, isLocalStorageAvailable, setItemRaw, hset]
      refine ⟨by rw [hm], ?_, hcatch⟩
      rw [hm]
      intro op hop
      rcases List.mem_append.mp hop with h1 | h2
      · exact Or.inl h1
      · rcases List.mem_singleton.mp h2 with rfl
        exact Or.inr rfl

/-- Witness for the amended C3 at the concrete private-mode medium. -/
theorem availability_gating_amended_witness :
    (isLocalStorageAvailable cexMedium).1 = false ∧
    ((updateStorageSync 7 { pending := none, saves := [] } cexMedium).1 =
        { pending := none, saves := [] } ∧
      (∀ op ∈ (updateStorageSync 7 { pending := none, saves := [] } cexMedium).2.ops,
          op ∈ cexMedium.ops ∨ op.key = "test") ∧
      (∀ c e, loadNotesBody c cexMedium = .error e →
          (loadNotes c cexMedium).1 = c ∧ (loadNotes c cexMedium).2.2 = 1)) :=
  ⟨by decide,
   availability_gating_amended 7 { pending := none, saves := [] } cexMedium (by decide)⟩

/-! ## C4 — save failure classification -/

/-- C4: when the `setItem` inside the timer callback throws error `e`:
exactly one set attempt on the `"notes"` key is recorded and the store is
unchanged (no automatic retry, no partial write); the error is logged
once; an alert is shown exactly when `e` is `'QuotaExceededError'`; and
the callback returns normally (the failure never propagates). -/
theorem save_failure_classification (container : String) (m : MedState) (e : String)
    (he : m.setError "notes" container = some e) :
    (saveCallback container m).medium.ops = m.ops ++ [MedOp.set "notes" container] ∧
    (saveCallback container m).medium.store = m.store ∧
    (saveCallback container m).logs = 1 ∧
    (saveCallback container m).alerts = (if e = "QuotaExceededError" then 1 else 0) := by
  simp [saveCallback, setItemRaw, he]

/-- A medium whose `"notes"` key rejects writes with a quota error. -/
def quotaMedium : MedState :=
  { store := fun _ => none,
    setError := fun k _ => if k = "notes" then some "QuotaExceededError" else none,
    getError := fun _ => none,
    ops := [] }

/-- Witness for C4 at a quota-throwing medium: one attempt, one log,
exactly one alert. -/
theorem save_failure_classification_witness :
    quotaMedium.setError "notes" "x" = some "QuotaExceededError" ∧
    ((saveCallback "x" quotaMedium).medium.ops =
        quotaMedium.ops ++ [MedOp.set "notes" "x"] ∧
      (saveCallback "x" quotaMedium).medium.store = quotaMedium.store ∧
      (saveCallback "x" quotaMedium).logs = 1 ∧
      (saveCallback "x" quotaMedium).alerts =
        (if "QuotaExceededError" = "QuotaExceededError" then 1 else 0)) :=
  ⟨by decide, save_failure_classification "x" quotaMedium "QuotaExceededError" (by decide)⟩

/-! ## C5 — creation and identifier uniqueness -/

/-- C5: `createNote` does append exactly one new item (an editable
`input-box` with one delete-control child), focus it and request a save —
but its identifier is `Date.now()`, and two invocations while the clock
reads the same value (the time source is only monotonically
non-decreasing) yield two items with the SAME `data-note-id`: the
distinct-identifier part of the claim, and the code's own
"unique identifier" comment (line 89), fail. -/
theorem createNote_duplicate_id :
    (createNote 5 (createNote 5 (DomState.mk [] none 0))).notes.map Elem.dataNoteId =
      [some 5, some 5] ∧
    ¬ ((createNote 5 (createNote 5 (DomState.mk [] none 0))).notes.map Elem.dataNoteId).Nodup ∧
    (createNote 5 (createNote 5 (DomState.mk [] none 0))).notes =
      [newNoteElem 5, newNoteElem 5] ∧
    (createNote 5 (createNote 5 (DomState.mk [] none 0))).focused = some (newNoteElem 5) ∧
    (createNote 5 (createNote 5 (DomState.mk [] none 0))).saveRequests = 2 := by decide

/-! ## C6 — click routing -/

/-- C6: a click whose target is an `IMG` with class `delete-btn`, bubbled
from inside the item at index `i`, suppresses the default action, removes
exactly that item — the surviving list is the prefix before `i` followed
by the suffix after `i` — and requests one save; a click on any other
target leaves the state untouched and requests no save. -/
theorem handleNotesClick_routing (c c2 : Click) (s : DomState) (i : Nat)
    (hdel : isDeleteControlTarget c = true) (hidx : c.parentIdx = some i)
    (hlen : i < s.notes.length) (hnot : isDeleteControlTarget c2 = false) :
    (handleNotesClick c s).1.notes = s.notes.take i ++ s.notes.drop (i + 1) ∧
    (handleNotesClick c s).1.notes.length = s.notes.length - 1 ∧
    (handleNotesClick c s).1.saveRequests = s.saveRequests + 1 ∧
    (handleNotesClick c s).2 = true ∧
    handleNotesClick c2 s = (s, false) := by
  have h1 : handleNotesClick c s = (deleteNote (some i) s, true) := by
    simp [handleNotesClick, hdel, hidx]
  have h2 : (deleteNote (some i) s).notes = s.notes.take i ++ s.notes.drop (i + 1) := by
    simp [deleteNote, List.eraseIdx_eq_take_drop_succ]
  refine ⟨by rw [h1]; exact h2, ?_, by rw [h1]; rfl, by rw [h1], ?_⟩
  · rw [h1]
    simp only [h2, List.length_append, List.length_take, List.length_drop]
    omega
  · simp [handleNotesClick, hnot]

/-- Witness for C6: deleting the first of two items via its control,
while a stray click elsewhere does nothing. -/
theorem handleNotesClick_routing_witness :
    (isDeleteControlTarget { tag := "IMG", classes := ["delete-btn"], parentIdx := some 0 } =
        true ∧
      Click.parentIdx { tag := "IMG", classes := ["delete-btn"], parentIdx := some 0 } =
        some 0 ∧
      0 < (DomState.mk [newNoteElem 1, newNoteElem 2] none 0).notes.length ∧
      isDeleteControlTarget { tag := "P", classes := [], parentIdx := none } = false) ∧
    ((handleNotesClick { tag := "IMG", classes := ["delete-btn"], parentIdx := some 0 }
          (DomState.mk [newNoteElem 1, newNoteElem 2] none 0)).1.notes =
        (DomState.mk [newNoteElem 1, newNoteElem 2] none 0).notes.take 0 ++
          (DomState.mk [newNoteElem 1, newNoteElem 2] none 0).notes.drop (0 + 1) ∧
      (handleNotesClick { tag := "IMG", classes := ["delete-btn"], parentIdx := some 0 }
          (DomState.mk [newNoteElem 1, newNoteElem 2] none 0)).1.notes.length =
        (DomState.mk [newNoteElem 1, newNoteElem 2] none 0).notes.length - 1 ∧
      (handleNotesClick { tag := "IMG", classes := ["delete-btn"], parentIdx := some 0 }
          (DomState.mk [newNoteElem 1, newNoteElem 2] none 0)).1.saveRequests =
        (DomState.mk [newNoteElem 1, newNoteElem 2] none 0).saveRequests + 1 ∧
      (handleNotesClick { tag := "IMG", classes := ["delete-btn"], parentIdx := some 0 }
          (DomState.mk [newNoteElem 1, newNoteElem 2] none 0)).2 = true ∧
      handleNotesClick { tag := "P", classes := [], parentIdx := none }
          (DomState.mk [newNoteElem 1, newNoteElem 2] none 0) =
        (DomState.mk [newNoteElem 1, newNoteElem 2] none 0, false)) :=
  ⟨⟨by decide, by decide, by decide, by decide⟩,
   handleNotesClick_routing
     { tag := "IMG", classes := ["delete-btn"], parentIdx := some 0 }
     { tag := "P", classes := [], parentIdx := none }
     (DomState.mk [newNoteElem 1, newNoteElem 2] none 0) 0
     (by decide) (by decide) (by decide) (by decide)⟩

/-! ## C7 — save/load round-trip -/

/-- A fresh, fully working medium: empty store, nothing throws. -/
def emptyMedium : MedState :=
  { store := fun _ => none,
    setError := fun _ _ => none,
    getError := fun _ => none,
    ops := [] }

/-- C7 counterexample: saving the empty string succeeds and stores `""`
byte-for-byte, but the load operation then yields absent and leaves the
container untouched — it does not return a snapshot equal to `""`,
because `loadNotes` tests JS truthiness, under which `""` is false. -/
theorem roundtrip_fails_on_empty_string :
    (saveCallback "" emptyMedium).medium.store "notes" = some "" ∧
    loadResult (saveCallback "" emptyMedium).medium = none ∧
    (loadNotes "C" (saveCallback "" emptyMedium).medium).1 = "C" := by decide

/-- C7 amended: for every NONEMPTY snapshot string `s`, after a
successful save of `s` with no intervening mutation of the stored key,
the load operation yields a snapshot byte-for-byte equal to `s` and
restores it into the container; an empty snapshot, though stored
faithfully by the medium, is treated by load as absent. -/
theorem save_load_roundtrip (m : MedState) (s c : String)
    (hs : s ≠ "")
    (hset : m.setError "notes" s = none)
    (hget : m.getError "notes" = none) :
    loadResult (saveCallback s m).medium = some s ∧
    (loadNotes c (saveCallback s m).medium).1 = s := by
  have hsave : (saveCallback s m).medium.store "notes" = some s ∧
      (saveCallback s m).medium.getError "notes" = none := by
    simp [saveCallback, setItemRaw, hset, hget]
  constructor
  · simp [loadResult, hsave.1, hsave.2, hs]
  · simp [loadNotes, loadNotesBody, getItemRaw, hsave.1, hsave.2, hs]

/-- Witness for the amended C7: save `"x"` on a fresh medium, load gets
`"x"` back. -/
theorem save_load_roundtrip_witness :
    ("x" ≠ "" ∧ emptyMedium.setError "notes" "x" = none ∧
      emptyMedium.getError "notes" = none) ∧
    (loadResult (saveCallback "x" emptyMedium).medium = some "x" ∧
      (loadNotes "C" (saveCallback "x" emptyMedium).medium).1 = "x") :=
  ⟨⟨by decide, rfl, rfl⟩, save_load_roundtrip emptyMedium "x" "C" (by decide) rfl rfl⟩

/-! ## C8 — paste handling -/

/-- C8: the paste listener queues exactly one zero-delay callback whose
body calls `updateStorage`, never calls `preventDefault` and inserts
nothing itself; host dispatch therefore observes the default insertion
completing within the paste's own task, then exactly one yield to the
task queue, then the save request — so the pasted content is in the tree
before the snapshot producer can run. -/
theorem paste_defers_one_tick :
    queuedOf pasteHandlerActs = [(0, Cb.callUpdateStorage)] ∧
    pasteHandlerActs.contains HandlerAct.preventDefault = false ∧
    dispatchEvent pasteHandlerActs =
      [EvObs.defaultInsertion, EvObs.yieldToHost, EvObs.saveRequested] := by decide

/-! ## C9 — delete of an absent element -/

/-- C9: `deleteNote` called with a null/undefined element hits the
`if (!noteElement) return` guard and is a complete no-op: the tree, the
focus and the save-request count (hence timer scheduling) are unchanged. -/
theorem deleteNote_null_noop (s : DomState) : deleteNote none s = s := rfl

/-! ## C10 — empty stored snapshot at rehydration -/

/-- C10: when the value stored under the `"notes"` key is the empty
string, `loadNotes` leaves the container's content unchanged: the JS
truthiness test `if (savedNotes)` treats `""` exactly like an absent
snapshot, so a previously saved empty document is not restored. -/
theorem loadNotes_empty_snapshot (c : String) (m : MedState)
    (hstore : m.store "notes" = some "")
    (hget : m.getError "notes" = none) :
    (loadNotes c m).1 = c ∧ loadResult m = none := by
  constructor
  · simp [loadNotes, loadNotesBody, getItemRaw, hget, hstore]
  · simp [loadResult, hget, hstore]

/-- A medium whose `"notes"` key holds the empty string. -/
def emptySnapshotMedium : MedState :=
  { store := fun k => if k = "notes" then some "" else none,
    setError := fun _ _ => none,
    getError := fun _ => none,
    ops := [] }

/-- Witness for C10 at a medium storing `""` under the key. -/
theorem loadNotes_empty_snapshot_witness :
    (emptySnapshotMedium.store "notes" = some "" ∧
      emptySnapshotMedium.getError "notes" = none) ∧
    ((loadNotes "C" emptySnapshotMedium).1 = "C" ∧ loadResult emptySnapshotMedium = none) :=
  ⟨⟨by decide, rfl⟩, loadNotes_empty_snapshot "C" emptySnapshotMedium (by decide) rfl⟩

end NotesApp
